import Mathlib

/-!
# Verification of the OSINT browser-automation extension

A shallow embedding, in Lean 4, of the core of the `opnfrt-devchallenge`
repository: the CDP abstraction layer (`src/modules/cdp/core.ts` — `CDPContext`
and `Page`), the orchestrator (`src/background.ts` — `collectOSINTData`) and
the message-boundary validation (the `chrome.runtime.onMessage` listener).

Modelling conventions, used throughout:
* Asynchronous JS is modelled by total Lean functions over an explicit
  environment that fixes the outcome of every effectful step (tab creation,
  loaded waits, scraping tasks, storage, DOM queries, event deliveries).
  A rejected promise is an `Except.error`, a resolved one `Except.ok`.
* Time is a `Nat` counted in milliseconds.  Command round-trips are taken to
  be instantaneous (healthy transport), so elapsed time in polling loops is
  driven entirely by the explicit `setTimeout`-style sleeps, exactly the
  delays the source hard-codes (500 ms poll interval, 1000 ms body settle,
  5000 ms navigation fallback, 30000 ms default selector timeout).
* JS truthiness at the points the source relies on it (`value || null`,
  `filter(text => text)`, `options.timeout || 30000`) is modelled explicitly:
  the empty string and `0` are falsy.
-/

namespace OSINT

/-! ## IP-address validation (`src/background.ts`, the `ipRegex` boundary)

The listener validates with
`/^(?:(?:25[0-5]|2[0-4][0-9]|[01]?[0-9][0-9]?)\.){3}(?:25[0-5]|2[0-4][0-9]|[01]?[0-9][0-9]?)$/`.
Each alternation branch of the octet sub-pattern is transcribed separately.
Since no octet match can contain a dot, the anchored whole-string pattern
matches exactly the strings that split at dots into four octet matches. -/

/-- The character class `[0-9]`. -/
def isDigit (c : Char) : Bool := 48 ≤ c.toNat && c.toNat ≤ 57

/-- The branch `25[0-5]` of the octet pattern. -/
def branch25x : List Char → Bool
  | ['2', '5', c] => 48 ≤ c.toNat && c.toNat ≤ 53
  | _ => false

/-- The branch `2[0-4][0-9]` of the octet pattern. -/
def branch2xx : List Char → Bool
  | ['2', c, d] => (48 ≤ c.toNat && c.toNat ≤ 52) && isDigit d
  | _ => false

/-- The branch `[01]?[0-9][0-9]?` of the octet pattern, by match length:
one digit; two characters (optional `[01]` prefix taken or not); or an
`[01]` prefix followed by two digits. -/
def branchLoose : List Char → Bool
  | [d] => isDigit d
  | [x, y] => ((x == '0' || x == '1') && isDigit y) || (isDigit x && isDigit y)
  | [a, d, e] => (a == '0' || a == '1') && isDigit d && isDigit e
  | _ => false

/-- The octet alternation `25[0-5]|2[0-4][0-9]|[01]?[0-9][0-9]?`. -/
def matchesOctet (s : List Char) : Bool :=
  branch25x s || branch2xx s || branchLoose s

/-- Split a character list at `'.'` separators (the behaviour of
`String.splitOn "."`, restated structurally so it evaluates by `rfl`). -/
def splitDots : List Char → List (List Char)
  | [] => [[]]
  | c :: rest =>
    match splitDots rest, c == '.' with
    | r, true => [] :: r
    | f :: rs, false => (c :: f) :: rs
    | [], false => [[c]]

/-- `ipRegex.test ip`: the string splits at dots into exactly four fields,
each matching the octet alternation. -/
def ipRegexTest (s : String) : Bool :=
  match splitDots s.data with
  | [a, b, c, d] => matchesOctet a && matchesOctet b && matchesOctet c && matchesOctet d
  | _ => false

/-! ## Orchestrator (`src/background.ts`, `collectOSINTData`)

The three known sources, the report shape, and the orchestrator run over an
environment fixing every collaborator outcome.  The run returns the report
together with the trace of externally visible effects (tab creation, tab
closing, storage). -/

/-- The three known OSINT sources, in the order the orchestrator creates
their tabs. -/
inductive Source
  | virustotal
  | ipinfo
  | abuseipdb
deriving DecidableEq, Repr

/-- The soft-error label each scraping `.catch` handler uses. -/
def Source.label : Source → String
  | .virustotal => "VirusTotal"
  | .ipinfo => "IPInfo"
  | .abuseipdb => "AbuseIPDB"

/-- Abstract payload produced by one scraper on success. -/
abbrev ScrapeData := String

/-- The `results.sources` object: one optional slot per source, all slots
starting empty (`sources: {}`). -/
structure SourceSlots where
  virustotal : Option ScrapeData
  ipinfo : Option ScrapeData
  abuseipdb : Option ScrapeData
deriving DecidableEq, Repr

/-- Read the slot of one source. -/
def SourceSlots.get (s : SourceSlots) : Source → Option ScrapeData
  | .virustotal => s.virustotal
  | .ipinfo => s.ipinfo
  | .abuseipdb => s.abuseipdb

/-- One entry of `results.errors`. -/
structure SoftError where
  source : String
  error : String
deriving DecidableEq, Repr

/-- The `OSINTResults` report (the timestamp field, an external clock read,
is not modelled). -/
structure OSINTResults where
  ip : String
  sources : SourceSlots
  errors : List SoftError
deriving DecidableEq, Repr

/-- Environment fixing the outcome of every effectful step of one run:
tab creation per source, the loaded wait per source, the scraping task per
source, and the storage step.  `Except.error` is a rejected promise. -/
structure OrchEnv where
  createTab : Source → Except String Nat
  waitLoad : Source → Except String Unit
  scrape : Source → Except String ScrapeData
  store : Except String Unit

/-- Externally visible effects of a run, in order of occurrence. -/
inductive Effect
  | createdTab (source : Source) (id : Nat)
  | closedTab (id : Nat)
  | stored (ip : String)
deriving DecidableEq, Repr

/-- The fresh report built at the top of `collectOSINTData`. -/
def emptyResults (ip : String) : OSINTResults :=
  ⟨ip, ⟨none, none, none⟩, []⟩

/-- The `catch` block: push one `Orchestration` soft-error and return the
report (never rethrow). -/
def orchError (r : OSINTResults) (e : String) : OSINTResults :=
  { r with errors := r.errors ++ [⟨"Orchestration", e⟩] }

/-- The `.then`/`.catch` pair attached to one scraping promise: success
fills the source's slot, rejection pushes a soft-error labelled with the
source; neither rethrows. -/
def applyScrape (env : OrchEnv) (src : Source) (r : OSINTResults) : OSINTResults :=
  match env.scrape src with
  | .ok d =>
    match src with
    | .virustotal => { r with sources := { r.sources with virustotal := some d } }
    | .ipinfo => { r with sources := { r.sources with ipinfo := some d } }
    | .abuseipdb => { r with sources := { r.sources with abuseipdb := some d } }
  | .error e => { r with errors := r.errors ++ [⟨src.label, e⟩] }

/-- The `finally` block: one `closeTab` per tab handle that is non-null, in
field order. -/
def closeEffects (vt ii ab : Option Nat) : List Effect :=
  (match vt with | some id => [Effect.closedTab id] | none => []) ++
  (match ii with | some id => [Effect.closedTab id] | none => []) ++
  (match ab with | some id => [Effect.closedTab id] | none => [])

/-- The `Promise.all` over the three `waitForTabLoad` calls: rejects with
the first rejection in source order, if any. -/
def firstWaitError (env : OrchEnv) : Option String :=
  match env.waitLoad .virustotal with
  | .error e => some e
  | .ok _ =>
    match env.waitLoad .ipinfo with
    | .error e => some e
    | .ok _ =>
      match env.waitLoad .abuseipdb with
      | .error e => some e
      | .ok _ => none

/-- `collectOSINTData(ipAddress)`: create the three tabs in order, await
their loads, run the three guarded scraping tasks, store, and return the
report; any exception is downgraded by the `catch` block to an
`Orchestration` soft-error on the same report; the `finally` block closes
every tab whose handle is non-null.  The scraping `.then`/`.catch`
continuations are applied in source order (a serialisation of the
concurrent completion; the report shape does not depend on it).  Returns
the report and the effect trace; the function is total — the promise the
source returns never rejects, because `catch` swallows every exception of
the `try` block and `closeTab` never rejects. -/
def collectOSINTData (env : OrchEnv) (ip : String) : OSINTResults × List Effect :=
  let r0 := emptyResults ip
  match env.createTab .virustotal with
  | .error e => (orchError r0 e, closeEffects none none none)
  | .ok vt =>
    match env.createTab .ipinfo with
    | .error e =>
      (orchError r0 e, [Effect.createdTab .virustotal vt] ++ closeEffects (some vt) none none)
    | .ok ii =>
      match env.createTab .abuseipdb with
      | .error e =>
        (orchError r0 e,
          [Effect.createdTab .virustotal vt, Effect.createdTab .ipinfo ii] ++
            closeEffects (some vt) (some ii) none)
      | .ok ab =>
        let created := [Effect.createdTab .virustotal vt, Effect.createdTab .ipinfo ii,
          Effect.createdTab .abuseipdb ab]
        let closes := closeEffects (some vt) (some ii) (some ab)
        match firstWaitError env with
        | some e => (orchError r0 e, created ++ closes)
        | none =>
          let r3 := applyScrape env .abuseipdb
            (applyScrape env .ipinfo (applyScrape env .virustotal r0))
          match env.store with
          | .ok _ => (r3, created ++ [Effect.stored ip] ++ closes)
          | .error e => (orchError r3 e, created ++ closes)

/-- Number of `createdTab` effects carrying a given tab id. -/
def createdCount (tr : List Effect) (id : Nat) : Nat :=
  tr.countP fun e =>
    match e with
    | .createdTab _ j => j == id
    | _ => false

/-- Number of `closedTab` effects carrying a given tab id. -/
def closedCount (tr : List Effect) (id : Nat) : Nat :=
  tr.countP fun e =>
    match e with
    | .closedTab j => j == id
    | _ => false

/-! ## Message boundary (`chrome.runtime.onMessage` listener, `collectOSINT`
action) -/

/-- A response delivered through `sendResponse`. -/
inductive MessageResponse
  | success
  | failure (error : String)
deriving DecidableEq, Repr

/-- What the listener did for a `collectOSINT` request: the response sent
synchronously on a validation failure (if any), whether `collectOSINTData`
was invoked, and the listener's boolean return value. -/
structure ListenerOutcome where
  syncResponse : Option MessageResponse
  collectInvoked : Bool
  listenerReturn : Bool
deriving DecidableEq, Repr

/-- The `collectOSINT` branch of the listener: missing identifier and
regex-rejected identifier answer synchronously with a failure and return
`false` without touching `collectOSINTData`; a validated identifier starts
the collection (whose effect trace is the run's). -/
def listenerRun (env : OrchEnv) (req : Option String) : ListenerOutcome × List Effect :=
  match req with
  | none => (⟨some (.failure "IP address is required"), false, false⟩, [])
  | some ip =>
    if ipRegexTest ip then
      (⟨none, true, true⟩, (collectOSINTData env ip).2)
    else
      (⟨some (.failure "Invalid IP address format"), false, false⟩, [])

/-! ## Protocol session (`src/modules/cdp/core.ts`, `CDPContext.sendCommand`) -/

/-- The message of the guard throw in `CDPContext.sendCommand`. -/
def notAttachedMsg : String := "CDP context not attached. Call attach() first."

/-- `CDPContext.sendCommand(domain, method, params)`: throws when the
context is not attached, otherwise issues the single qualified command
`domain.method` to the host and resolves or rejects with the host's answer.
Returns the outcome together with the list of commands actually issued to
the host. -/
def sendCommand (attached : Bool) (host : String → Except String String)
    (domain method : String) : Except String String × List String :=
  if attached then
    (host (domain ++ "." ++ method), [domain ++ "." ++ method])
  else
    (.error notAttachedMsg, [])

/-! ## Page automation (`src/modules/cdp/core.ts`, `Page`)

The DOM is an oracle giving, for each poll time (ms) and selector, the list
of matching elements (`document.querySelectorAll` order; `querySelector` is
its head).  Transport is healthy: command round-trips succeed and take no
time, so elapsed time advances only at explicit sleeps. -/

/-- One DOM element as the injected expressions observe it: its
`textContent`, its `offsetParent !== null` visibility, and its
attributes. -/
structure Elem where
  text : String
  visible : Bool
  attrs : List (String × String)

/-- DOM oracle: matches of a selector at a given time. -/
def DomOracle := Nat → String → List Elem

/-- The options object of `waitForSelector`. -/
structure WaitOptions where
  timeout : Option Nat
  visible : Bool

/-- Outcome of a bounded wait, carrying the elapsed time (ms) at return or
at the `TimeoutError` throw. -/
inductive WaitResult
  | success (elapsed : Nat)
  | timeoutErr (elapsed : Nat)
deriving DecidableEq, Repr

/-- `options.timeout || 30000`: JS `||`, so an explicit `0` also falls back
to the 30000 ms default. -/
def timeoutOrDefault (o : Option Nat) : Nat :=
  match o with
  | some t => if t = 0 then 30000 else t
  | none => 30000

/-- One poll evaluation: the injected expression reports
`{found, visible}` from `querySelector`; the loop returns on
`found && (!options.visible || visible)`. -/
def checkSelector (dom : DomOracle) (sel : String) (visibleOpt : Bool) (t : Nat) : Bool :=
  match dom t sel with
  | [] => false
  | e :: _ => !visibleOpt || e.visible

/-- The polling loop of `waitForSelector`: while `elapsed < timeout`,
evaluate; return success on a qualifying match, else sleep 500 ms; on
expiry throw `TimeoutError`.  Structural fuel makes it kernel-evaluable;
`pollFuel` below always suffices. -/
def pollLoop (dom : DomOracle) (sel : String) (visibleOpt : Bool) (timeout : Nat) :
    Nat → Nat → WaitResult
  | 0, elapsed => WaitResult.timeoutErr elapsed
  | fuel + 1, elapsed =>
    if elapsed < timeout then
      if checkSelector dom sel visibleOpt elapsed then WaitResult.success elapsed
      else pollLoop dom sel visibleOpt timeout fuel (elapsed + 500)
    else WaitResult.timeoutErr elapsed

/-- Enough fuel for `pollLoop` to run out of time before running out of
fuel. -/
def pollFuel (timeout : Nat) : Nat := timeout / 500 + 1

/-- `Page.waitForSelector(selector, options)`: the selector `'body'`
short-circuits to a fixed 1000 ms settle sleep and immediate success,
without any evaluation; every other selector is polled every 500 ms within
the (defaulted) timeout. -/
def waitForSelector (dom : DomOracle) (sel : String) (opts : WaitOptions) : WaitResult :=
  if sel = "body" then WaitResult.success 1000
  else
    pollLoop dom sel opts.visible (timeoutOrDefault opts.timeout)
      (pollFuel (timeoutOrDefault opts.timeout)) 0

/-- JS `String.prototype.trim` over the ASCII whitespace the model uses. -/
def isWhitespaceChar (c : Char) : Bool :=
  c == ' ' || c == '\t' || c == '\n' || c == '\r'

/-- `text.trim()`. -/
def trimJS (s : String) : String :=
  ⟨((s.data.dropWhile isWhitespaceChar).reverse.dropWhile isWhitespaceChar).reverse⟩

/-- The `value || null` coercion at the public interface: the empty string
is falsy, so it collapses to `null`. -/
def jsOrNullStr (v : Option String) : Option String :=
  match v with
  | some s =>
    match s.data with
    | [] => none
    | _ => some s
  | none => none

/-- `element ? element.textContent.trim() : null` on the first match. -/
def firstText (elems : List Elem) : Option String :=
  match elems with
  | [] => none
  | e :: _ => some (trimJS e.text)

/-- `Page.textContent(selector)`: for a non-`'body'` selector it first runs
`waitForSelector(selector)` (default options), whose `TimeoutError`
propagates; on success it evaluates the query at the success time and
returns the trimmed text of the first match coerced by `|| null`; for
`'body'` the wait is skipped and the evaluation runs immediately. -/
def textContent (dom : DomOracle) (sel : String) : Except String (Option String) :=
  if sel = "body" then
    Except.ok (jsOrNullStr (firstText (dom 0 sel)))
  else
    match waitForSelector dom sel ⟨none, false⟩ with
    | .success t => Except.ok (jsOrNullStr (firstText (dom t sel)))
    | .timeoutErr _ => Except.error ("Timeout waiting for selector: " ++ sel)

/-- `Page.textContents(selector)`: no wait; evaluates once, mapping
`textContent.trim()` over all matches and filtering by truthiness (the
empty string is dropped); `|| []` keeps the result a sequence. -/
def textContents (dom : DomOracle) (sel : String) : Except String (List String) :=
  Except.ok (((dom 0 sel).map fun e => trimJS e.text).filter fun t => !t.isEmpty)

/-- `element.getAttribute(name)`: the attribute's value, or `null` when
absent. -/
def lookupAttr (attr : String) : List (String × String) → Option String
  | [] => none
  | (k, v) :: rest => if k == attr then some v else lookupAttr attr rest

/-- `Page.getAttribute(selector, attribute)`: `waitForSelector(selector)`
first (its `TimeoutError` propagates), then one evaluation returning the
attribute value of the first match, coerced by `|| null`. -/
def getAttribute (dom : DomOracle) (sel attr : String) : Except String (Option String) :=
  match waitForSelector dom sel ⟨none, false⟩ with
  | .success t =>
    Except.ok (jsOrNullStr
      (match dom t sel with
        | [] => none
        | e :: _ => lookupAttr attr e.attrs))
  | .timeoutErr _ => Except.error ("Timeout waiting for selector: " ++ sel)

/-! ## Navigation race (`Page.goto`)

After `Page.enable` and `Page.navigate` (healthy transport assumed), the
promise body registers `onLoad` on `Page.loadEventFired` and `onFrameLoad`
on `Page.frameStoppedLoading` and arms a 5000 ms fallback timer; the first
branch to fire flips the `resolved` flag, cancels the timer, unregisters
both listeners and resolves.  The model replays an arbitrary timed list of
event deliveries, with the timer firing at 5000 ms if still armed. -/

/-- An event delivery relevant to `goto`'s race. -/
inductive PageEvent
  | loadFired
  | frameStopped (hasFrameId : Bool)
deriving DecidableEq, Repr

/-- The mutable state of `goto`'s promise body: the `resolved` flag, when
and how many times `resolve()` ran, which listeners are still registered,
and whether the fallback timer is still armed. -/
structure GotoState where
  resolved : Bool
  resolveTime : Option Nat
  resolveCount : Nat
  onLoadRegistered : Bool
  onFrameRegistered : Bool
  fallbackArmed : Bool
deriving DecidableEq, Repr

/-- The shared resolution body: set `resolved`, cancel the timer,
unregister both listeners, call `resolve()`. -/
def resolveNow (st : GotoState) (t : Nat) : GotoState :=
  { st with
    resolved := true
    resolveTime := some t
    resolveCount := st.resolveCount + 1
    onLoadRegistered := false
    onFrameRegistered := false
    fallbackArmed := false }

/-- Deliver one CDP event at time `t`: a handler runs only while its
registration stands; `onLoad` resolves if not already resolved;
`onFrameLoad` additionally requires a truthy `params.frameId`. -/
def gotoStep (st : GotoState) (t : Nat) (ev : PageEvent) : GotoState :=
  match ev with
  | .loadFired =>
    if st.onLoadRegistered then
      if !st.resolved then resolveNow st t else st
    else st
  | .frameStopped hasId =>
    if st.onFrameRegistered then
      if !st.resolved && hasId then resolveNow st t else st
    else st

/-- The fallback timer firing at 5000 ms, if it was not cleared. -/
def gotoFallback (st : GotoState) : GotoState :=
  if st.fallbackArmed then
    if !st.resolved then resolveNow st 5000 else st
  else st

/-- State right after registering both listeners and arming the timer. -/
def gotoInit : GotoState := ⟨false, none, 0, true, true, true⟩

/-- The state `goto`'s promise body reaches once resolved at time `t`. -/
def gotoResolved (t : Nat) : GotoState := ⟨true, some t, 1, false, false, false⟩

/-- Replay `goto`'s race over a timed list of event deliveries: events
before the 5000 ms mark, then the fallback timer (if still armed), then the
rest. -/
def gotoRun (evs : List (Nat × PageEvent)) : GotoState :=
  (evs.filter fun e => !(e.1 < 5000)).foldl (fun st e => gotoStep st e.1 e.2)
    (gotoFallback ((evs.filter fun e => e.1 < 5000).foldl (fun st e => gotoStep st e.1 e.2)
      gotoInit))

/-! ## Network idle (`Page.waitForNetworkIdle`)

After `Network.enable`, the body registers `onRequest` on
`Network.requestWillBeSent` (increment the in-flight count, clear the idle
timer) and `onResponse` on `Network.responseReceived` (decrement; when the
count is `<= 0`, restart the idle timer for the full `timeout`), and arms an
initial idle timer of `timeout`; firing of the idle timer unregisters both
listeners and resolves.  The model replays a timed event list; a due idle
deadline fires before the next event is handled, and a deadline still
pending after the last event fires at its due time. -/

/-- A network event delivery. -/
inductive NetEvent
  | requestWillBeSent
  | responseReceived
deriving DecidableEq, Repr

/-- State of `waitForNetworkIdle`'s promise body: the in-flight request
count (a JS number — unmatched responses drive it negative), the pending
idle-timer deadline, whether and when it resolved, and whether the two
listeners are still registered. -/
structure NetState where
  requestCount : Int
  idleDeadline : Option Nat
  resolved : Bool
  resolveTime : Option Nat
  listenersRegistered : Bool
deriving DecidableEq, Repr

/-- The idle-timer body: unregister both listeners and resolve. -/
def netResolve (st : NetState) (t : Nat) : NetState :=
  { st with
    resolved := true
    resolveTime := some t
    listenersRegistered := false
    idleDeadline := none }

/-- Fire the pending idle timer if its deadline has been reached by `now`. -/
def fireIdleIfDue (st : NetState) (now : Nat) : NetState :=
  match st.idleDeadline with
  | some d => if d ≤ now && !st.resolved then netResolve st d else st
  | none => st

/-- The registered handlers for one network event: `onRequest` increments
the count and clears the idle timer; `onResponse` decrements and, when the
count is `<= 0`, restarts the idle timer for the full `timeout`.  Handlers
run only while registered. -/
def netHandle (timeout : Nat) (st : NetState) (t : Nat) (ev : NetEvent) : NetState :=
  if !st.listenersRegistered then st
  else
    match ev with
    | .requestWillBeSent =>
      { st with requestCount := st.requestCount + 1, idleDeadline := none }
    | .responseReceived =>
      if st.requestCount - 1 ≤ 0 then
        { st with requestCount := st.requestCount - 1, idleDeadline := some (t + timeout) }
      else
        { st with requestCount := st.requestCount - 1 }

/-- Deliver one network event at time `t`, first letting a due idle timer
fire. -/
def netStep (timeout : Nat) (st : NetState) (t : Nat) (ev : NetEvent) : NetState :=
  netHandle timeout (fireIdleIfDue st t) t ev

/-- State right after registering the listeners and arming the initial idle
timer (registration time 0, so the initial deadline is `timeout`). -/
def netInit (timeout : Nat) : NetState := ⟨0, some timeout, false, none, true⟩

/-- After the last event, a still-pending idle deadline fires at its due
time; with no pending deadline and no resolution the promise hangs. -/
def netFinish (st : NetState) : NetState :=
  match st.idleDeadline with
  | some d => if !st.resolved then netResolve st d else st
  | none => st

/-- `Page.waitForNetworkIdle(timeout)` replayed over a timed list of
network event deliveries. -/
def waitForNetworkIdle (timeout : Nat) (evs : List (Nat × NetEvent)) : NetState :=
  netFinish (evs.foldl (fun st e => netStep timeout st e.1 e.2) (netInit timeout))

/-! ## Concrete instances used to evaluate the models -/

/-- An environment where every collaborator succeeds (tab ids 1, 2, 3). -/
def envAllOk : OrchEnv :=
  { createTab := fun s => .ok (match s with | .virustotal => 1 | .ipinfo => 2 | .abuseipdb => 3)
    waitLoad := fun _ => .ok ()
    scrape := fun _ => .ok "data"
    store := .ok () }

/-- An environment where only the AbuseIPDB scraping task rejects. -/
def envOneFailing : OrchEnv :=
  { createTab := fun s => .ok (match s with | .virustotal => 1 | .ipinfo => 2 | .abuseipdb => 3)
    waitLoad := fun _ => .ok ()
    scrape := fun s => match s with | .abuseipdb => .error "boom" | _ => .ok "data"
    store := .ok () }

/-- The value a resolved scraping promise carried, if it resolved. -/
def okValue : Except String ScrapeData → Option ScrapeData
  | .ok d => some d
  | .error _ => none

/-- A DOM in which no selector ever matches. -/
def emptyDom : DomOracle := fun _ _ => []

/-- A DOM in which every selector always has one visible match. -/
def matchingDom : DomOracle := fun _ _ => [⟨"hello", true, []⟩]

/-- The element a whitespace-only node with an empty `alt` attribute
presents to the extraction reads. -/
def blankElem : Elem := ⟨"  ", true, [("alt", "")]⟩

/-- A DOM whose single match has whitespace-only text and an empty `alt`. -/
def blankDom : DomOracle := fun _ _ => [blankElem]

/-! ## Helper lemmas -/

/-- `pollLoop` succeeds only at a time where the evaluation observed a
qualifying match. -/
theorem pollLoop_success_check (dom : DomOracle) (sel : String) (v : Bool) (timeout : Nat) :
    ∀ fuel elapsed e, pollLoop dom sel v timeout fuel elapsed = .success e →
      checkSelector dom sel v e = true := by
  intro fuel
  induction fuel with
  | zero => intro elapsed e h; simp [pollLoop] at h
  | succ n ih =>
    intro elapsed e h
    rw [pollLoop] at h
    by_cases hlt : elapsed < timeout
    · rw [if_pos hlt] at h
      by_cases hc : checkSelector dom sel v elapsed = true
      · rw [if_pos hc] at h
        cases h
        exact hc
      · rw [if_neg hc] at h
        exact ih _ _ h
    · rw [if_neg hlt] at h
      cases h

/-- With enough fuel, a `pollLoop` whose evaluations never observe a match
throws `TimeoutError` with elapsed time at least the timeout. -/
theorem pollLoop_timeout_ge (dom : DomOracle) (sel : String) (v : Bool) (timeout : Nat)
    (h : ∀ t, checkSelector dom sel v t = false) :
    ∀ fuel elapsed, timeout ≤ fuel * 500 + elapsed →
      ∃ e, pollLoop dom sel v timeout fuel elapsed = .timeoutErr e ∧ timeout ≤ e := by
  intro fuel
  induction fuel with
  | zero =>
    intro elapsed hb
    exact ⟨elapsed, rfl, by omega⟩
  | succ n ih =>
    intro elapsed hb
    rw [pollLoop]
    by_cases hlt : elapsed < timeout
    · rw [if_pos hlt, h elapsed]
      simp only [Bool.false_eq_true, if_false]
      exact ih (elapsed + 500) (by omega)
    · rw [if_neg hlt]
      exact ⟨elapsed, rfl, by omega⟩

/-- The standing fuel choice is enough to exhaust the time budget. -/
theorem pollFuel_enough (timeout : Nat) : timeout ≤ pollFuel timeout * 500 + 0 := by
  have h := Nat.div_add_mod timeout 500
  have h2 : timeout % 500 < 500 := Nat.mod_lt _ (by omega)
  simp only [pollFuel]
  omega

/-- A `pollLoop` whose first evaluation observes a qualifying match returns
success immediately (elapsed time of the first poll). -/
theorem pollLoop_first_hit (dom : DomOracle) (sel : String) (v : Bool) (timeout fuel elapsed : Nat)
    (hlt : elapsed < timeout) (hc : checkSelector dom sel v elapsed = true) :
    pollLoop dom sel v timeout (fuel + 1) elapsed = .success elapsed := by
  rw [pollLoop, if_pos hlt, if_pos hc]

/-- Once resolved, `goto`'s handlers are unregistered and do nothing. -/
theorem gotoStep_resolved (u t : Nat) (ev : PageEvent) :
    gotoStep (gotoResolved u) t ev = gotoResolved u := by
  cases ev <;> rfl

/-- Delivering one event to the initial `goto` state either leaves it
initial or resolves it at the delivery time. -/
theorem gotoStep_init (t : Nat) (ev : PageEvent) :
    gotoStep gotoInit t ev = gotoInit ∨ gotoStep gotoInit t ev = gotoResolved t := by
  cases ev with
  | loadFired => exact Or.inr rfl
  | frameStopped hasId =>
    cases hasId
    · exact Or.inl rfl
    · exact Or.inr rfl

/-- A resolved `goto` state is fixed by any further event deliveries. -/
theorem gotoFold_resolved (l : List (Nat × PageEvent)) (u : Nat) :
    l.foldl (fun st e => gotoStep st e.1 e.2) (gotoResolved u) = gotoResolved u := by
  induction l with
  | nil => rfl
  | cons x l ih => rw [List.foldl_cons, gotoStep_resolved]; exact ih

/-- Folding event deliveries from the initial `goto` state either keeps it
initial or resolves it at the time of one delivered event. -/
theorem gotoFold_init (l : List (Nat × PageEvent)) :
    l.foldl (fun st e => gotoStep st e.1 e.2) gotoInit = gotoInit ∨
      ∃ x ∈ l, l.foldl (fun st e => gotoStep st e.1 e.2) gotoInit = gotoResolved x.1 := by
  induction l with
  | nil => exact Or.inl rfl
  | cons x l ih =>
    rw [List.foldl_cons]
    rcases gotoStep_init x.1 x.2 with h | h
    · rw [h]
      rcases ih with h2 | ⟨y, hy, h2⟩
      · exact Or.inl h2
      · exact Or.inr ⟨y, List.mem_cons_of_mem _ hy, h2⟩
    · rw [h, gotoFold_resolved]
      exact Or.inr ⟨x, List.mem_cons_self _ _, rfl⟩

/-- `fireIdleIfDue` does not change the in-flight request count. -/
theorem fireIdleIfDue_requestCount (st : NetState) (t : Nat) :
    (fireIdleIfDue st t).requestCount = st.requestCount := by
  unfold fireIdleIfDue
  split
  · split
    · rfl
    · rfl
  · rfl

/-- `fireIdleIfDue` preserves the listener invariant: the two network
listeners are registered exactly while the promise is unresolved. -/
theorem fireIdleIfDue_inv (st : NetState) (t : Nat)
    (h : st.listenersRegistered = !st.resolved) :
    (fireIdleIfDue st t).listenersRegistered = !(fireIdleIfDue st t).resolved := by
  unfold fireIdleIfDue
  split
  · split
    · rfl
    · exact h
  · exact h

/-- `netHandle` preserves the listener invariant. -/
theorem netHandle_inv (timeout : Nat) (st : NetState) (t : Nat) (ev : NetEvent)
    (h : st.listenersRegistered = !st.resolved) :
    (netHandle timeout st t ev).listenersRegistered = !(netHandle timeout st t ev).resolved := by
  unfold netHandle
  split
  · exact h
  · cases ev with
    | requestWillBeSent => exact h
    | responseReceived =>
      by_cases hc : st.requestCount - 1 ≤ 0
      · simp only [if_pos hc]; exact h
      · simp only [if_neg hc]; exact h

/-- `netStep` preserves the listener invariant. -/
theorem netStep_inv (timeout : Nat) (st : NetState) (t : Nat) (ev : NetEvent)
    (h : st.listenersRegistered = !st.resolved) :
    (netStep timeout st t ev).listenersRegistered = !(netStep timeout st t ev).resolved :=
  netHandle_inv timeout _ t ev (fireIdleIfDue_inv st t h)

/-- The listener invariant holds after folding any event list from the
initial network-idle state. -/
theorem netFold_inv (timeout : Nat) (evs : List (Nat × NetEvent)) :
    (evs.foldl (fun st e => netStep timeout st e.1 e.2) (netInit timeout)).listenersRegistered =
      !(evs.foldl (fun st e => netStep timeout st e.1 e.2) (netInit timeout)).resolved := by
  have : ∀ (l : List (Nat × NetEvent)) (st : NetState),
      st.listenersRegistered = !st.resolved →
      (l.foldl (fun st e => netStep timeout st e.1 e.2) st).listenersRegistered =
        !(l.foldl (fun st e => netStep timeout st e.1 e.2) st).resolved := by
    intro l
    induction l with
    | nil => intro st h; exact h
    | cons x l ih =>
      intro st h
      rw [List.foldl_cons]
      exact ih _ (netStep_inv timeout st x.1 x.2 h)
  exact this evs (netInit timeout) rfl

/-- `netFinish` preserves the listener invariant. -/
theorem netFinish_inv (st : NetState) (h : st.listenersRegistered = !st.resolved) :
    (netFinish st).listenersRegistered = !(netFinish st).resolved := by
  unfold netFinish
  split
  · split
    · rfl
    · exact h
  · exact h

/-! ## Claim theorems -/

/-- Claim C8: a session never issues a command while unattached —
`sendCommand` on an unattached context rejects with the not-attached error
and issues nothing to the host, whatever the host would have answered. -/
theorem sendCommand_requires_attached (host : String → Except String String)
    (domain method : String) :
    sendCommand false host domain method = (.error notAttachedMsg, []) := rfl

/-- Claim C5: an identifier rejected by the strict dotted-quad pattern is
answered synchronously with `{success: false, error: "Invalid IP address
format"}`, the listener returns `false` (no pending async response),
`collectOSINTData` is never invoked and the run's effect trace is empty —
zero tabs created — for every environment. -/
theorem malformed_identifier_rejected (env : OrchEnv) (ip : String)
    (h : ipRegexTest ip = false) :
    listenerRun env (some ip) =
      (⟨some (.failure "Invalid IP address format"), false, false⟩, []) := by
  simp [listenerRun, h]

/-- Witness for C5 at the spec's own example "999.999.999.999". -/
theorem malformed_identifier_rejected_witness :
    ipRegexTest "999.999.999.999" = false ∧
    listenerRun envAllOk (some "999.999.999.999") =
      (⟨some (.failure "Invalid IP address format"), false, false⟩, []) :=
  ⟨by decide, malformed_identifier_rejected envAllOk _ (by decide)⟩

/-- Claim C10: dotted quads with leading-zero octets pass the regex check
("[01]?[0-9][0-9]?" admits them), so the listener starts the collection and
targets are created: with every collaborator succeeding, the three tabs are
created (and later closed) and the report is stored. -/
theorem leading_zero_octets_accepted :
    ipRegexTest "001.002.003.004" = true ∧
    ipRegexTest "010.020.030.040" = true ∧
    (listenerRun envAllOk (some "001.002.003.004")).1.collectInvoked = true ∧
    (listenerRun envAllOk (some "001.002.003.004")).2 =
      [.createdTab .virustotal 1, .createdTab .ipinfo 2, .createdTab .abuseipdb 3,
        .stored "001.002.003.004", .closedTab 1, .closedTab 2, .closedTab 3] := by
  refine ⟨by decide, by decide, rfl, by decide⟩

/-- Claim C4: for every timed sequence of load/frame events (including
none at all), `goto`'s promise body resolves exactly once, no later than
the 5000 ms fallback, and on resolution the timer is cancelled and both
event listeners are unregistered — whichever branch fired first did it. -/
theorem goto_race_resolution (evs : List (Nat × PageEvent)) :
    ∃ t, t ≤ 5000 ∧
      (gotoRun evs).resolveTime = some t ∧
      (gotoRun evs).resolveCount = 1 ∧
      (gotoRun evs).onLoadRegistered = false ∧
      (gotoRun evs).onFrameRegistered = false ∧
      (gotoRun evs).fallbackArmed = false := by
  have key : ∃ t, t ≤ 5000 ∧ gotoRun evs = gotoResolved t := by
    unfold gotoRun
    rcases gotoFold_init (evs.filter fun e => e.1 < 5000) with h | ⟨x, hx, h⟩
    · rw [h]
      have hf : gotoFallback gotoInit = gotoResolved 5000 := rfl
      rw [hf, gotoFold_resolved]
      exact ⟨5000, le_refl _, rfl⟩
    · rw [h]
      have hf : gotoFallback (gotoResolved x.1) = gotoResolved x.1 := rfl
      rw [hf, gotoFold_resolved]
      have hlt : x.1 < 5000 := by
        have := List.mem_filter.mp hx
        simpa using this.2
      exact ⟨x.1, le_of_lt hlt, rfl⟩
  rcases key with ⟨t, ht, heq⟩
  exact ⟨t, ht, by rw [heq]; rfl, by rw [heq]; rfl, by rw [heq]; rfl, by rw [heq]; rfl,
    by rw [heq]; rfl⟩

/-- Claim C3 counterexample: with no matching element, `textContent` on an
ordinary selector does not return null — the `waitForSelector` it runs
first throws `TimeoutError`, which propagates. -/
theorem textContent_no_match_counterexample :
    textContent emptyDom "div" = .error "Timeout waiting for selector: div" := rfl

/-- Claim C3 (amended): on a selector that never matches, `textContents`
returns the empty sequence and never fails, and `textContent` returns null
only for the selector `'body'` (whose wait is skipped); every other
selector makes `textContent` propagate the `TimeoutError` of the
`waitForSelector` it runs first. -/
theorem absence_tolerance (dom : DomOracle) (sel : String)
    (hnone : ∀ t, dom t sel = []) :
    textContents dom sel = .ok [] ∧
    (sel = "body" → textContent dom sel = .ok none) ∧
    (sel ≠ "body" → textContent dom sel = .error ("Timeout waiting for selector: " ++ sel)) := by
  refine ⟨?_, ?_, ?_⟩
  · simp [textContents, hnone 0]
  · intro hb
    subst hb
    simp [textContent, hnone 0, firstText, jsOrNullStr]
  · intro hb
    have hcheck : ∀ t, checkSelector dom sel false t = false := by
      intro t
      simp [checkSelector, hnone t]
    rcases pollLoop_timeout_ge dom sel false (timeoutOrDefault none) hcheck
        (pollFuel (timeoutOrDefault none)) 0 (pollFuel_enough _) with ⟨e, he, _⟩
    rw [textContent, if_neg hb, waitForSelector, if_neg hb]
    rw [he]

/-- Witness for C3 (amended) on a never-matching DOM and the selector
"div". -/
theorem absence_tolerance_witness :
    textContents emptyDom "div" = .ok [] ∧
    ("div" = "body" → textContent emptyDom "div" = .ok none) ∧
    ("div" ≠ "body" →
      textContent emptyDom "div" = .error ("Timeout waiting for selector: " ++ "div")) :=
  absence_tolerance emptyDom "div" (fun _ => rfl)

/-- Claim C6 counterexample: for the designated selector `'body'`,
`waitForSelector` returns success after the fixed 1000 ms settle delay even
on a DOM where no evaluation could ever observe a match — so neither "never
returns success before an observed match" nor "raises TimeoutError when no
match is ever observed" holds for every selector. -/
theorem waitForSelector_body_counterexample :
    waitForSelector emptyDom "body" ⟨none, false⟩ = .success 1000 ∧
    checkSelector emptyDom "body" false 1000 = false := ⟨rfl, rfl⟩

/-- Claim C6 (amended to exempt the `'body'` short-circuit): for every
other selector and option set, success is only ever returned at an elapsed
time whose evaluation observed the selector to match (and to be visible
when requested), and if no evaluation ever observes such a match the call
throws `TimeoutError` with elapsed time at least the (defaulted) timeout. -/
theorem waitForSelector_sound (dom : DomOracle) (sel : String) (opts : WaitOptions)
    (hsel : sel ≠ "body") :
    (∀ e, waitForSelector dom sel opts = .success e →
      checkSelector dom sel opts.visible e = true) ∧
    ((∀ t, checkSelector dom sel opts.visible t = false) →
      ∃ e, waitForSelector dom sel opts = .timeoutErr e ∧
        timeoutOrDefault opts.timeout ≤ e) := by
  constructor
  · intro e h
    rw [waitForSelector, if_neg hsel] at h
    exact pollLoop_success_check dom sel opts.visible _ _ _ _ h
  · intro hnever
    rcases pollLoop_timeout_ge dom sel opts.visible (timeoutOrDefault opts.timeout) hnever
        (pollFuel (timeoutOrDefault opts.timeout)) 0 (pollFuel_enough _) with ⟨e, he, hge⟩
    refine ⟨e, ?_, hge⟩
    rw [waitForSelector, if_neg hsel]
    exact he

/-- Witness for C6 (amended): on an always-matching DOM the success branch
fires and its elapsed time indeed observed the match; the instantiated
timeout branch is vacuously available. -/
theorem waitForSelector_sound_witness :
    (∀ e, waitForSelector matchingDom "div" ⟨none, false⟩ = .success e →
      checkSelector matchingDom "div" false e = true) ∧
    ((∀ t, checkSelector matchingDom "div" false t = false) →
      ∃ e, waitForSelector matchingDom "div" ⟨none, false⟩ = .timeoutErr e ∧
        timeoutOrDefault none ≤ e) :=
  waitForSelector_sound matchingDom "div" ⟨none, false⟩ (by decide)

/-- Claim C9: the `|| null` coercion collapses empty strings to null at
the public interface — a matched element whose trimmed text is empty makes
`textContent` return null, and a matched element whose requested attribute
value is the empty string makes `getAttribute` return null, the same
answer `getAttribute` gives for an attribute that is absent altogether. -/
theorem empty_values_coerced_to_null (dom : DomOracle) (sel attr : String)
    (e : Elem) (rest : List Elem)
    (hsel : sel ≠ "body")
    (he : dom 0 sel = e :: rest)
    (htext : trimJS e.text = "")
    (hattr : lookupAttr attr e.attrs = some "") :
    textContent dom sel = .ok none ∧
    getAttribute dom sel attr = .ok none ∧
    (∀ a2, lookupAttr a2 e.attrs = none → getAttribute dom sel a2 = .ok none) := by
  have hc : checkSelector dom sel false 0 = true := by
    simp [checkSelector, he]
  have hwait : waitForSelector dom sel ⟨none, false⟩ = .success 0 := by
    rw [waitForSelector, if_neg hsel]
    have h30 : timeoutOrDefault (none : Option Nat) = 30000 := rfl
    rw [h30]
    exact pollLoop_first_hit dom sel false 30000 (30000 / 500) 0 (by omega) hc
  have hz : jsOrNullStr (some "") = none := rfl
  refine ⟨?_, ?_, ?_⟩
  · rw [textContent, if_neg hsel, hwait]
    simp [he, firstText, htext, hz]
  · rw [getAttribute, hwait]
    simp [he, hattr, hz]
  · intro a2 ha2
    rw [getAttribute, hwait]
    simp [he, ha2, jsOrNullStr]

/-- Witness for C9 on a DOM whose single match has whitespace-only text
and an empty `alt` attribute. -/
theorem empty_values_coerced_to_null_witness :
    textContent blankDom "img" = .ok none ∧
    getAttribute blankDom "img" "alt" = .ok none ∧
    (∀ a2, lookupAttr a2 blankElem.attrs = none → getAttribute blankDom "img" a2 = .ok none) :=
  empty_values_coerced_to_null blankDom "img" "alt" blankElem [] (by decide) rfl rfl rfl

/-- Claim C7 counterexample: with zero network events ever observed,
`waitForNetworkIdle(5000)` resolves at exactly the 5000 ms timeout — the
initial idle timer runs its full course — not immediately. -/
theorem networkIdle_zero_requests_counterexample :
    (waitForNetworkIdle 5000 []).resolveTime = some 5000 ∧
    (waitForNetworkIdle 5000 []).resolveTime ≠ some 0 := by
  exact ⟨rfl, by decide⟩

/-- Claim C7 (amended): when zero request events are observed the call
resolves exactly `timeout` after registration (not immediately); when the
stream ends with a response that brings the in-flight count to `<= 0` and
the call had not already resolved, it resolves exactly `timeout` after that
last completion; and whenever it resolves, both network listeners have been
unregistered. -/
theorem networkIdle_behaviour (timeout : Nat) (l : List (Nat × NetEvent)) (tLast : Nat)
    (hcount :
      (l.foldl (fun st e => netStep timeout st e.1 e.2) (netInit timeout)).requestCount ≤ 1)
    (hunres :
      (fireIdleIfDue (l.foldl (fun st e => netStep timeout st e.1 e.2) (netInit timeout))
        tLast).resolved = false) :
    (waitForNetworkIdle timeout []).resolveTime = some timeout ∧
    (waitForNetworkIdle timeout
        (l ++ [(tLast, NetEvent.responseReceived)])).resolveTime = some (tLast + timeout) ∧
    (∀ evs, (waitForNetworkIdle timeout evs).resolved = true →
      (waitForNetworkIdle timeout evs).listenersRegistered = false) := by
  refine ⟨rfl, ?_, ?_⟩
  · have hinv := netFold_inv timeout l
    have hinv1 := fireIdleIfDue_inv _ tLast hinv
    have hreg :
        (fireIdleIfDue (l.foldl (fun st e => netStep timeout st e.1 e.2) (netInit timeout))
          tLast).listenersRegistered = true := by
      rw [hinv1, hunres]
      rfl
    have hle :
        (fireIdleIfDue (l.foldl (fun st e => netStep timeout st e.1 e.2) (netInit timeout))
          tLast).requestCount - 1 ≤ 0 := by
      rw [fireIdleIfDue_requestCount]
      omega
    rw [waitForNetworkIdle, List.foldl_append, List.foldl_cons, List.foldl_nil]
    rw [netStep, netHandle]
    rw [hreg]
    simp only [Bool.not_true, Bool.false_eq_true, if_false]
    rw [if_pos hle]
    rw [netFinish]
    simp only [hunres, Bool.not_false, if_true]
    rfl
  · intro evs h
    have hinv : (waitForNetworkIdle timeout evs).listenersRegistered
        = !(waitForNetworkIdle timeout evs).resolved :=
      netFinish_inv _ (netFold_inv timeout evs)
    rw [hinv, h]
    rfl

/-- Witness for C7 (amended): one request at 0 ms completing at 100 ms
with a 500 ms window resolves at 600 ms. -/
theorem networkIdle_behaviour_witness :
    (waitForNetworkIdle 500 []).resolveTime = some 500 ∧
    (waitForNetworkIdle 500
        ([(0, NetEvent.requestWillBeSent)] ++ [(100, NetEvent.responseReceived)])).resolveTime
      = some (100 + 500) ∧
    (∀ evs, (waitForNetworkIdle 500 evs).resolved = true →
      (waitForNetworkIdle 500 evs).listenersRegistered = false) :=
  networkIdle_behaviour 500 [(0, NetEvent.requestWillBeSent)] 100 (by decide) (by decide)

/-- Claim C1: in every run — whatever succeeds or throws among tab
creation, the loaded waits, the scraping tasks and the storage step — each
tab id is closed exactly as many times as it was created: every
successfully created target is destroyed exactly once before the run
completes. -/
theorem tab_teardown_exactly_once (env : OrchEnv) (ip : String) (id : Nat) :
    closedCount (collectOSINTData env ip).2 id = createdCount (collectOSINTData env ip).2 id := by
  unfold collectOSINTData
  rcases h1 : env.createTab .virustotal with e1 | vt
  · simp [closedCount, createdCount, closeEffects]
  · rcases h2 : env.createTab .ipinfo with e2 | ii
    · simp [closedCount, createdCount, closeEffects, List.countP_append, List.countP_cons]
    · rcases h3 : env.createTab .abuseipdb with e3 | ab
      · simp [closedCount, createdCount, closeEffects, List.countP_append, List.countP_cons]
      · rcases h4 : firstWaitError env with _ | e4
        · rcases h5 : env.store with _ | e5
          · simp [closedCount, createdCount, closeEffects, List.countP_append,
              List.countP_cons]
          · simp [closedCount, createdCount, closeEffects, List.countP_append,
              List.countP_cons]
        · simp [closedCount, createdCount, closeEffects, List.countP_append, List.countP_cons]

/-- Claim C2 counterexample: in the run where only the AbuseIPDB task
rejects and the other two succeed, the report carries no slot at all for
the failing source — `results.sources` only ever receives success values —
against the claim's "a slot (possibly failed) for the failing source". -/
theorem report_failing_slot_counterexample :
    (collectOSINTData envOneFailing "1.2.3.4").1.sources.get .abuseipdb = none ∧
    (collectOSINTData envOneFailing "1.2.3.4").1.sources.get .virustotal = some "data" ∧
    (collectOSINTData envOneFailing "1.2.3.4").1.sources.get .ipinfo = some "data" ∧
    (collectOSINTData envOneFailing "1.2.3.4").1.errors = [⟨"AbuseIPDB", "boom"⟩] := by
  exact ⟨rfl, rfl, rfl, by decide⟩

/-- Claim C2 (amended): when the three tabs are created, the loads and the
storage succeed, and exactly one scraping task rejects, the report has a
success slot for each succeeding source, no slot for the failing source,
and exactly one soft-error naming the failing source; the run returns this
report (the model is the `catch`-completed run, which never rejects). -/
theorem report_shape_one_task_failing (env : OrchEnv) (ip : String) (bad : Source)
    (msg : String)
    (hvt : ∃ n, env.createTab .virustotal = .ok n)
    (hii : ∃ n, env.createTab .ipinfo = .ok n)
    (hab : ∃ n, env.createTab .abuseipdb = .ok n)
    (hw : firstWaitError env = none)
    (hstore : env.store = .ok ())
    (hbad : env.scrape bad = .error msg)
    (hgood : ∀ s, s ≠ bad → ∃ d, env.scrape s = .ok d) :
    (collectOSINTData env ip).1.sources.get bad = none ∧
    (∀ s, s ≠ bad →
      (collectOSINTData env ip).1.sources.get s = okValue (env.scrape s)) ∧
    (collectOSINTData env ip).1.errors = [⟨bad.label, msg⟩] := by
  obtain ⟨vt, hvt⟩ := hvt
  obtain ⟨ii, hii⟩ := hii
  obtain ⟨ab, hab⟩ := hab
  have hrun : (collectOSINTData env ip).1 =
      applyScrape env .abuseipdb
        (applyScrape env .ipinfo (applyScrape env .virustotal (emptyResults ip))) := by
    simp only [collectOSINTData, hvt, hii, hab, hw, hstore]
  rw [hrun]
  cases bad with
  | virustotal =>
    obtain ⟨d2, hd2⟩ := hgood .ipinfo (by decide)
    obtain ⟨d3, hd3⟩ := hgood .abuseipdb (by decide)
    refine ⟨?_, ?_, ?_⟩
    · simp [applyScrape, hbad, hd2, hd3, SourceSlots.get, emptyResults]
    · intro s hs
      cases s with
      | virustotal => exact absurd rfl hs
      | ipinfo => simp [applyScrape, hbad, hd2, hd3, SourceSlots.get, emptyResults, okValue]
      | abuseipdb => simp [applyScrape, hbad, hd2, hd3, SourceSlots.get, emptyResults, okValue]
    · simp [applyScrape, hbad, hd2, hd3, emptyResults, Source.label]
  | ipinfo =>
    obtain ⟨d1, hd1⟩ := hgood .virustotal (by decide)
    obtain ⟨d3, hd3⟩ := hgood .abuseipdb (by decide)
    refine ⟨?_, ?_, ?_⟩
    · simp [applyScrape, hbad, hd1, hd3, SourceSlots.get, emptyResults]
    · intro s hs
      cases s with
      | virustotal => simp [applyScrape, hbad, hd1, hd3, SourceSlots.get, emptyResults, okValue]
      | ipinfo => exact absurd rfl hs
      | abuseipdb => simp [applyScrape, hbad, hd1, hd3, SourceSlots.get, emptyResults, okValue]
    · simp [applyScrape, hbad, hd1, hd3, emptyResults, Source.label]
  | abuseipdb =>
    obtain ⟨d1, hd1⟩ := hgood .virustotal (by decide)
    obtain ⟨d2, hd2⟩ := hgood .ipinfo (by decide)
    refine ⟨?_, ?_, ?_⟩
    · simp [applyScrape, hbad, hd1, hd2, SourceSlots.get, emptyResults]
    · intro s hs
      cases s with
      | virustotal => simp [applyScrape, hbad, hd1, hd2, SourceSlots.get, emptyResults, okValue]
      | ipinfo => simp [applyScrape, hbad, hd1, hd2, SourceSlots.get, emptyResults, okValue]
      | abuseipdb => exact absurd rfl hs
    · simp [applyScrape, hbad, hd1, hd2, emptyResults, Source.label]

/-- Witness for C2 (amended) in the concrete run where only AbuseIPDB's
task rejects. -/
theorem report_shape_one_task_failing_witness :
    (collectOSINTData envOneFailing "1.2.3.4").1.sources.get .abuseipdb = none ∧
    (∀ s, s ≠ Source.abuseipdb →
      (collectOSINTData envOneFailing "1.2.3.4").1.sources.get s
        = okValue (envOneFailing.scrape s)) ∧
    (collectOSINTData envOneFailing "1.2.3.4").1.errors
      = [⟨Source.label .abuseipdb, "boom"⟩] :=
  report_shape_one_task_failing envOneFailing "1.2.3.4" .abuseipdb "boom"
    ⟨1, rfl⟩ ⟨2, rfl⟩ ⟨3, rfl⟩ rfl rfl rfl
    (fun s hs => by
      cases s with
      | virustotal => exact ⟨"data", rfl⟩
      | ipinfo => exact ⟨"data", rfl⟩
      | abuseipdb => exact absurd rfl hs)

end OSINT
